import Mathlib

/-
Verification of the homelab-infrastructure-monitor collection agent
(src/agent/agent.py) via a shallow embedding in Lean 4.

Conventions of the embedding:
  - Python floats (timestamps, rates) are modelled as exact rationals.
  - Python int() truncation toward zero is modelled by pyInt.
  - External effects (psutil counters, the wall clock, HTTP and TCP network
    calls, the YAML file) are passed in as explicit arguments or oracle
    outcomes, so every function of the code becomes a pure Lean function.
  - The mutable attributes of MetricsCollector become an explicit
    CollectorState threaded through the collection functions.
-/

namespace AgentPy

/-- Python int() applied to an exact rational: truncation toward zero.
Since a rational is stored in lowest terms with positive denominator,
this is Int.tdiv of numerator by denominator. -/
def pyInt (q : ℚ) : ℤ := q.num.tdiv (q.den : ℤ)

/-- Cumulative disk I/O counters, as returned by psutil.disk_io_counters
(only the fields the agent reads). -/
structure DiskCounters where
  read_bytes : ℤ
  write_bytes : ℤ
deriving DecidableEq, Repr

/-- Cumulative network I/O counters, as returned by psutil.net_io_counters
(only the fields the agent reads). -/
structure NetCounters where
  bytes_sent : ℤ
  bytes_recv : ℤ
deriving DecidableEq, Repr

/-- The mutable state of MetricsCollector: self.last_disk_io,
self.last_net_io and the single shared self.last_time attribute
(agent.py lines 61-63). -/
structure CollectorState where
  last_disk_io : Option DiskCounters
  last_net_io : Option NetCounters
  last_time : Option ℚ
deriving DecidableEq, Repr

/-- The fresh state built by MetricsCollector.__init__: all three
attributes are None. -/
def CollectorState.init : CollectorState :=
  { last_disk_io := none, last_net_io := none, last_time := none }

/-- The dict returned by collect_disk_io_metrics. -/
structure DiskResult where
  read_bytes : ℤ
  write_bytes : ℤ
  read_bytes_per_sec : ℤ
  write_bytes_per_sec : ℤ
deriving DecidableEq, Repr

/-- The dict returned by collect_network_metrics. -/
structure NetResult where
  bytes_sent : ℤ
  bytes_recv : ℤ
  bytes_sent_per_sec : ℤ
  bytes_recv_per_sec : ℤ
deriving DecidableEq, Repr

/-- MetricsCollector.collect_disk_io_metrics (agent.py lines 110-137).
current_io and current_time stand for psutil.disk_io_counters() and
time.time(). If self.last_disk_io is None or self.last_time is None the
first-call branch stores the sample and returns the all-zero dict;
otherwise rates are divided by current_time - self.last_time and both
self.last_disk_io and self.last_time are updated. -/
def collect_disk_io_metrics (s : CollectorState) (current_io : DiskCounters)
    (current_time : ℚ) : DiskResult × CollectorState :=
  match s.last_disk_io, s.last_time with
  | some last_io, some last_t =>
      let time_delta := current_time - last_t
      let read_rate := ((current_io.read_bytes - last_io.read_bytes : ℤ) : ℚ) / time_delta
      let write_rate := ((current_io.write_bytes - last_io.write_bytes : ℤ) : ℚ) / time_delta
      ({ read_bytes := current_io.read_bytes
         write_bytes := current_io.write_bytes
         read_bytes_per_sec := pyInt read_rate
         write_bytes_per_sec := pyInt write_rate },
       { s with last_disk_io := some current_io, last_time := some current_time })
  | _, _ =>
      ({ read_bytes := 0, write_bytes := 0
         read_bytes_per_sec := 0, write_bytes_per_sec := 0 },
       { s with last_disk_io := some current_io, last_time := some current_time })

/-- MetricsCollector.collect_network_metrics (agent.py lines 139-165).
In the rate branch only self.last_net_io is assigned (line 158): the
shared self.last_time attribute is left unchanged there. -/
def collect_network_metrics (s : CollectorState) (current_net : NetCounters)
    (current_time : ℚ) : NetResult × CollectorState :=
  match s.last_net_io, s.last_time with
  | some last_net, some last_t =>
      let time_delta := current_time - last_t
      let send_rate := ((current_net.bytes_sent - last_net.bytes_sent : ℤ) : ℚ) / time_delta
      let recv_rate := ((current_net.bytes_recv - last_net.bytes_recv : ℤ) : ℚ) / time_delta
      ({ bytes_sent := current_net.bytes_sent
         bytes_recv := current_net.bytes_recv
         bytes_sent_per_sec := pyInt send_rate
         bytes_recv_per_sec := pyInt recv_rate },
       { s with last_net_io := some current_net })
  | _, _ =>
      ({ bytes_sent := 0, bytes_recv := 0
         bytes_sent_per_sec := 0, bytes_recv_per_sec := 0 },
       { s with last_net_io := some current_net, last_time := some current_time })

/-- Python str() of an Optional[int] as interpolated by an f-string:
None prints as the text None, an int prints in decimal. -/
def pyStrOptInt : Option ℤ → String
  | none => "None"
  | some n => toString n

/-- A HealthCheckConfig entry (agent.py lines 33-39): pydantic model with
optional url, host, port and an expected_status defaulting to 200. -/
structure HealthCheckConfig where
  name : String
  type : String
  url : Option String := none
  host : Option String := none
  port : Option ℤ := none
  expected_status : Option ℤ := some 200
deriving DecidableEq, Repr

/-- A health-check result dict. The Python code builds dicts with
different key sets; an outer Option models presence of the key (so
host = some none models a present key holding Python None). -/
structure HealthCheckResult where
  name : String
  type : String
  healthy : Bool
  status_code : Option ℤ := none
  response_time_ms : Option ℤ := none
  host : Option (Option String) := none
  port : Option (Option ℤ) := none
  message : String
deriving DecidableEq, Repr

/-- Outcome of the external call requests.get(config.url, timeout=5):
either some exception (timeout, DNS failure, connection refused, or the
error raised when config.url is None), carried as its message string, or
a completed response with its status code and the elapsed seconds. -/
inductive HttpOutcome where
  | exc : String → HttpOutcome
  | response : ℤ → ℚ → HttpOutcome
deriving DecidableEq, Repr

/-- Outcome of the external socket connect_ex call: either an exception
(carried as its message string, also covering a None host or port), or a
completed call returning an errno-style integer result. -/
inductive TcpOutcome where
  | exc : String → TcpOutcome
  | connected : ℤ → TcpOutcome
deriving DecidableEq, Repr

/-- HealthChecker.check_http (agent.py lines 252-276). The whole body is
inside try/except, so an exception outcome always yields the four-key
unhealthy dict whose message is the exception text. -/
def check_http (config : HealthCheckConfig) (outcome : HttpOutcome) :
    HealthCheckResult :=
  match outcome with
  | .response status_code response_time =>
      let is_healthy := decide ((some status_code : Option ℤ) = config.expected_status)
      { name := config.name
        type := "http"
        healthy := is_healthy
        status_code := some status_code
        response_time_ms := some (pyInt (response_time * 1000))
        message :=
          if is_healthy then "OK"
          else "Expected " ++ pyStrOptInt config.expected_status ++ ", got " ++
            toString status_code }
  | .exc e =>
      { name := config.name, type := "http", healthy := false, message := e }

/-- HealthChecker.check_tcp (agent.py lines 278-304). healthy iff
connect_ex returned 0; the success dict echoes the configured host and
port; an exception yields the four-key unhealthy dict. -/
def check_tcp (config : HealthCheckConfig) (outcome : TcpOutcome) :
    HealthCheckResult :=
  match outcome with
  | .connected result =>
      let is_healthy := decide (result = 0)
      { name := config.name
        type := "tcp"
        healthy := is_healthy
        host := some config.host
        port := some config.port
        message := if is_healthy then "Port is open" else "Port is closed" }
  | .exc e =>
      { name := config.name, type := "tcp", healthy := false, message := e }

/-- HealthChecker.check_all (agent.py lines 306-317): dispatch on the
type string, appending a result for http and tcp specs and skipping all
others. The network environments are passed as oracles mapping each
spec to the outcome its probe would observe. -/
def check_all (env_http : HealthCheckConfig → HttpOutcome)
    (env_tcp : HealthCheckConfig → TcpOutcome) :
    List HealthCheckConfig → List HealthCheckResult
  | [] => []
  | check :: rest =>
      if check.type = "http" then
        check_http check (env_http check) :: check_all env_http env_tcp rest
      else if check.type = "tcp" then
        check_tcp check (env_tcp check) :: check_all env_http env_tcp rest
      else
        check_all env_http env_tcp rest

/-- Outcome of the external self.session.post call in Agent.send_metrics:
either a RequestException during transmission (network error, timeout),
or a completed response with its status code. -/
inductive PostOutcome where
  | request_exception : String → PostOutcome
  | response : ℤ → PostOutcome
deriving DecidableEq, Repr

/-- requests' Response.raise_for_status raises HTTPError exactly for
status codes in [400, 600): 4xx client errors and 5xx server errors. -/
def raise_for_status_raises (status_code : ℤ) : Bool :=
  (400 ≤ status_code && status_code < 600 : Bool)

/-- Agent.send_metrics (agent.py lines 360-373): post the payload, call
raise_for_status, return True on success; every RequestException
(including the HTTPError raised by raise_for_status) is caught, logged
and mapped to False. No retry happens inside the call. -/
def send_metrics (outcome : PostOutcome) : Bool :=
  match outcome with
  | .request_exception _ => false
  | .response status_code =>
      if raise_for_status_raises status_code then false else true

/-- What happens inside one iteration of the try block of Agent.run:
either the cycle body runs to completion (carrying send_metrics' result),
or an Exception escapes it, or a KeyboardInterrupt arrives. -/
inductive CycleEvent where
  | ok : Bool → CycleEvent
  | exception : String → CycleEvent
  | interrupt : CycleEvent
deriving DecidableEq, Repr

/-- Observable actions of the agent loop, in order: a completed cycle
(with its transmission result), the error log of a caught exception,
a time.sleep(interval_seconds) call, and loop exit via break. -/
inductive LoopAction where
  | cycle : Bool → LoopAction
  | log_error : String → LoopAction
  | sleep : ℤ → LoopAction
  | stopped : LoopAction
deriving DecidableEq, Repr

/-- Agent.run (agent.py lines 375-400) as a trace function over a finite
prefix of per-iteration events: a completed cycle sleeps and continues;
a caught Exception is logged, sleeps the same interval and continues;
KeyboardInterrupt logs and breaks the while True loop. -/
def run_loop (interval : ℤ) : List CycleEvent → List LoopAction
  | [] => []
  | .ok sent :: rest => .cycle sent :: .sleep interval :: run_loop interval rest
  | .exception e :: rest => .log_error e :: .sleep interval :: run_loop interval rest
  | .interrupt :: _ => [.stopped]

/-- The snapshot assembled in one iteration of Agent.run: the dict
returned by collect_all (of abstract type α) plus the optional
health_checks key added at lines 385-387. -/
structure CycleSnapshot (α : Type) where
  metrics : α
  health_checks : Option (List HealthCheckResult)
deriving DecidableEq, Repr

/-- Lines 384-387 of Agent.run: run check_all over the configured checks
and attach the result list under the health_checks key only when that
list is truthy, i.e. non-empty. -/
def cycle_snapshot {α : Type} (metrics : α)
    (env_http : HealthCheckConfig → HttpOutcome)
    (env_tcp : HealthCheckConfig → TcpOutcome)
    (configured : List HealthCheckConfig) : CycleSnapshot α :=
  let health_checks := check_all env_http env_tcp configured
  if health_checks.isEmpty then
    { metrics := metrics, health_checks := none }
  else
    { metrics := metrics, health_checks := some health_checks }

/-- ServerConfig (agent.py lines 22-24): url and api_key are required. -/
structure ServerConfig where
  url : String
  api_key : String
deriving DecidableEq, Repr

/-- CollectionConfig (agent.py lines 27-30) after validation:
interval_seconds defaults to 30 and is constrained to [5, 3600]. -/
structure CollectionConfig where
  interval_seconds : ℤ
  include_docker : Bool
  disk_mounts : List String
deriving DecidableEq, Repr

/-- AgentConfig (agent.py lines 42-45) after validation. -/
structure AgentConfig where
  server : ServerConfig
  collection : CollectionConfig
  health_checks : List HealthCheckConfig
deriving DecidableEq, Repr

/-- The server section of the parsed YAML dict before validation: either
key may be absent. -/
structure RawServer where
  url : Option String := none
  api_key : Option String := none
deriving DecidableEq, Repr

/-- The collection section of the parsed YAML dict before validation. -/
structure RawCollection where
  interval_seconds : Option ℤ := none
  include_docker : Option Bool := none
  disk_mounts : Option (List String) := none
deriving DecidableEq, Repr

/-- The parsed YAML dict handed to AgentConfig(**config_dict), keeping
the fields the claims depend on. -/
structure RawConfig where
  server : Option RawServer := none
  collection : Option RawCollection := none
  health_checks : Option (List HealthCheckConfig) := none
deriving DecidableEq, Repr

/-- Pydantic validation of the server section: the section itself and
both of its string fields are required. -/
def validateServer : Option RawServer → Except String ServerConfig
  | none => .error "server: field required"
  | some raw =>
      match raw.url, raw.api_key with
      | some url, some api_key => .ok { url := url, api_key := api_key }
      | none, _ => .error "server.url: field required"
      | some _, none => .error "server.api_key: field required"

/-- Pydantic validation of the collection section: an absent section or
field takes the declared default; interval_seconds must satisfy the
Field(ge=5, le=3600) bounds. -/
def validateCollection : Option RawCollection → Except String CollectionConfig
  | none => .ok { interval_seconds := 30, include_docker := true, disk_mounts := ["/"] }
  | some raw =>
      let interval := raw.interval_seconds.getD 30
      if interval < 5 then
        .error "collection.interval_seconds: input should be at least 5"
      else if 3600 < interval then
        .error "collection.interval_seconds: input should be at most 3600"
      else
        .ok { interval_seconds := interval
              include_docker := raw.include_docker.getD true
              disk_mounts := raw.disk_mounts.getD ["/"] }

/-- Pydantic validation of the whole AgentConfig model. Pydantic collects
every field error into one ValidationError; here the first error stands
for the whole report, which is enough because load_config only needs to
know that validation failed. -/
def validateAgentConfig (raw : RawConfig) : Except String AgentConfig :=
  match validateServer raw.server with
  | .error e => .error e
  | .ok server =>
      match validateCollection raw.collection with
      | .error e => .error e
      | .ok collection =>
          .ok { server := server, collection := collection
                health_checks := raw.health_checks.getD [] }

/-- Python str.startswith over the string's characters. -/
def pyStartsWith (s p : String) : Bool :=
  decide (s.toList.take p.toList.length = p.toList)

/-- Python str.endswith over the string's characters. -/
def pyEndsWith (s p : String) : Bool :=
  decide (s.toList.drop (s.toList.length - p.toList.length) = p.toList)

/-- Python s[2:-1]: drop the first two characters and the last one. -/
def pySlice2ToLast (s : String) : String :=
  String.mk ((s.toList.drop 2).dropLast)

/-- Lines 342-347 of Agent.load_config: when both the server section and
its api_key are present and the key matches the placeholder shape
dollar-brace NAME brace, replace it by os.getenv(NAME, the empty
string). The process environment is the env oracle. -/
def substitute_api_key (env : String → Option String) (raw : RawConfig) :
    RawConfig :=
  match raw.server with
  | none => raw
  | some srv =>
      match srv.api_key with
      | none => raw
      | some api_key =>
          if pyStartsWith api_key "$\x7b" && pyEndsWith api_key "\x7d" then
            let env_var := pySlice2ToLast api_key
            { raw with server := some { srv with api_key := some ((env env_var).getD "") } }
          else raw

/-- Outcome of opening and yaml-parsing the configuration file: the file
may be missing (FileNotFoundError), the document may be malformed (any
yaml or other exception, carried as its message), or parsing succeeds
with a dict. -/
inductive ConfigFileOutcome where
  | missing : ConfigFileOutcome
  | malformed : String → ConfigFileOutcome
  | parsed : RawConfig → ConfigFileOutcome

/-- Result of Agent.load_config: the validated config, or sys.exit with
the given status code. -/
inductive LoadResult where
  | ok : AgentConfig → LoadResult
  | exit : ℕ → LoadResult
deriving DecidableEq, Repr

/-- Agent.load_config (agent.py lines 334-358): FileNotFoundError,
ValidationError and every other exception are each logged and mapped to
sys.exit(1); otherwise the substituted, validated config is returned. -/
def load_config (env : String → Option String) (outcome : ConfigFileOutcome) :
    LoadResult :=
  match outcome with
  | .missing => .exit 1
  | .malformed _ => .exit 1
  | .parsed raw =>
      match validateAgentConfig (substitute_api_key env raw) with
      | .error _ => .exit 1
      | .ok config => .ok config

/-- The cpu_usage numbers the docker stats dict carries for one side
(cpu_stats or precpu_stats): total_usage and system_cpu_usage. -/
structure CpuUsageStats where
  total_usage : ℤ
  system_cpu_usage : ℤ
deriving DecidableEq, Repr

/-- Lines 202-206 of collect_docker_metrics: the CPU percentage before
rounding, guarded so that a non-positive system delta yields 0. -/
def container_cpu_percent (cpu_stats precpu_stats : CpuUsageStats) : ℚ :=
  let cpu_delta := cpu_stats.total_usage - precpu_stats.total_usage
  let system_delta := cpu_stats.system_cpu_usage - precpu_stats.system_cpu_usage
  if system_delta > 0 then ((cpu_delta : ℚ) / (system_delta : ℚ)) * 100 else 0

/-- Lines 209-211 of collect_docker_metrics: the memory percentage before
rounding, guarded so that a non-positive limit yields 0. -/
def container_mem_percent (mem_usage mem_limit : ℤ) : ℚ :=
  if mem_limit > 0 then ((mem_usage : ℚ) / (mem_limit : ℚ)) * 100 else 0

/-- Round-half-to-even on an exact rational, the tie rule of Python's
round builtin. -/
def roundHalfEven (q : ℚ) : ℤ :=
  let f := ⌊q⌋
  let frac := q - (f : ℚ)
  if frac < 1 / 2 then f
  else if 1 / 2 < frac then f + 1
  else if f % 2 = 0 then f else f + 1

/-- Python round(x, 2) idealized over exact rationals: round-half-even to
two decimal places. -/
def pyRound2 (q : ℚ) : ℚ := (roundHalfEven (q * 100) : ℚ) / 100

/-- The cpu_percent value stored in container_info (line 214):
round(cpu_percent, 2). -/
def reported_cpu_percent (cpu_stats precpu_stats : CpuUsageStats) : ℚ :=
  pyRound2 (container_cpu_percent cpu_stats precpu_stats)

/-- The memory_percent value stored in container_info (line 216):
round(mem_percent, 2). -/
def reported_mem_percent (mem_usage mem_limit : ℤ) : ℚ :=
  pyRound2 (container_mem_percent mem_usage mem_limit)

/-- C1, refuted: the previous-sample timestamp is not kept per resource
class. One shared last_time field exists; collect_network_metrics does
not update it in its rate branch. Concretely: after network collections
at times 0 and 5, the stored timestamp is still 0, not 5, and a third
network collection at time 6 with counters 0, 10, 16 reports a send rate
of 1 = (16-10)/(6-0), while the claimed per-class formula
(16-10)/(6-5) gives 6. -/
theorem C1_counterexample :
    ((collect_network_metrics (collect_network_metrics CollectorState.init
        ⟨0, 0⟩ 0).2 ⟨10, 0⟩ 5).2).last_time = some 0 ∧
    ((collect_network_metrics (collect_network_metrics CollectorState.init
        ⟨0, 0⟩ 0).2 ⟨10, 0⟩ 5).2).last_time ≠ some 5 ∧
    (collect_network_metrics (collect_network_metrics (collect_network_metrics
        CollectorState.init ⟨0, 0⟩ 0).2 ⟨10, 0⟩ 5).2 ⟨16, 0⟩ 6).1.bytes_sent_per_sec = 1 ∧
    pyInt (((16 : ℚ) - 10) / ((6 : ℚ) - 5)) = 6 := by
  refine ⟨rfl, by decide, ?_, by norm_num [pyInt]⟩
  show pyInt (((16 - 10 : ℤ) : ℚ) / ((6 : ℚ) - 0)) = 1
  norm_num [pyInt]

/-- C1 (amended): after the first sample, each class derives its rate as
(current counter minus that class's stored previous counter) divided by
(current timestamp minus the single shared stored timestamp), truncated
to an integer. The previous counters are per class, but the previous
timestamp is one shared field: a disk collection updates it to the
current time (so it does change the timestamp the network class will
next use), while a network collection updates only its own counters and
leaves the shared timestamp unchanged. -/
theorem C1_shared_prev_timestamp (s : CollectorState)
    (last_io : DiskCounters) (last_net : NetCounters) (last_t : ℚ)
    (cur_io : DiskCounters) (cur_net : NetCounters) (t : ℚ)
    (hdisk : s.last_disk_io = some last_io)
    (hnet : s.last_net_io = some last_net)
    (htime : s.last_time = some last_t) :
    collect_disk_io_metrics s cur_io t =
      ({ read_bytes := cur_io.read_bytes
         write_bytes := cur_io.write_bytes
         read_bytes_per_sec :=
           pyInt (((cur_io.read_bytes - last_io.read_bytes : ℤ) : ℚ) / (t - last_t))
         write_bytes_per_sec :=
           pyInt (((cur_io.write_bytes - last_io.write_bytes : ℤ) : ℚ) / (t - last_t)) },
       { last_disk_io := some cur_io, last_net_io := s.last_net_io,
         last_time := some t }) ∧
    collect_network_metrics s cur_net t =
      ({ bytes_sent := cur_net.bytes_sent
         bytes_recv := cur_net.bytes_recv
         bytes_sent_per_sec :=
           pyInt (((cur_net.bytes_sent - last_net.bytes_sent : ℤ) : ℚ) / (t - last_t))
         bytes_recv_per_sec :=
           pyInt (((cur_net.bytes_recv - last_net.bytes_recv : ℤ) : ℚ) / (t - last_t)) },
       { last_disk_io := s.last_disk_io, last_net_io := some cur_net,
         last_time := some last_t }) := by
  obtain ⟨d, n, tm⟩ := s
  simp only at hdisk hnet htime
  subst hdisk hnet htime
  exact ⟨rfl, rfl⟩

/-- Concrete instantiation of C1_shared_prev_timestamp: both classes with
stored counters and shared timestamp 0, collected again at time 5. -/
theorem C1_shared_prev_timestamp_witness :
    collect_disk_io_metrics ⟨some ⟨1, 2⟩, some ⟨3, 4⟩, some 0⟩ ⟨11, 22⟩ 5 =
      (⟨11, 22, pyInt (((11 - 1 : ℤ) : ℚ) / (5 - 0)),
        pyInt (((22 - 2 : ℤ) : ℚ) / (5 - 0))⟩,
       ⟨some ⟨11, 22⟩, some ⟨3, 4⟩, some 5⟩) ∧
    collect_network_metrics ⟨some ⟨1, 2⟩, some ⟨3, 4⟩, some 0⟩ ⟨13, 24⟩ 5 =
      (⟨13, 24, pyInt (((13 - 3 : ℤ) : ℚ) / (5 - 0)),
        pyInt (((24 - 4 : ℤ) : ℚ) / (5 - 0))⟩,
       ⟨some ⟨1, 2⟩, some ⟨13, 24⟩, some 0⟩) :=
  C1_shared_prev_timestamp ⟨some ⟨1, 2⟩, some ⟨3, 4⟩, some 0⟩
    ⟨1, 2⟩ ⟨3, 4⟩ 0 ⟨11, 22⟩ ⟨13, 24⟩ 5 rfl rfl rfl

/-- C2, refuted in its cumulative-totals part: on the first-ever call the
returned dict has every field equal to 0, the cumulative totals
included; with current disk counters 100 and 200 the returned
read_bytes is 0, not the raw 100. -/
theorem C2_counterexample :
    (collect_disk_io_metrics CollectorState.init ⟨100, 200⟩ 7).1.read_bytes = 0 ∧
    (collect_disk_io_metrics CollectorState.init ⟨100, 200⟩ 7).1.read_bytes ≠ 100 ∧
    (collect_network_metrics CollectorState.init ⟨100, 200⟩ 7).1.bytes_sent = 0 := by
  decide

/-- C2 (amended): on a call with no previous sample stored for the class
(its counters or the shared timestamp absent), the current counters and
timestamp are stored as the previous sample and the returned dict is
all-zero: the rate fields and the cumulative total fields alike are 0,
whatever the current counters are. -/
theorem C2_first_cycle_zero_result (s : CollectorState) (cur_io : DiskCounters)
    (cur_net : NetCounters) (t : ℚ)
    (hdisk : s.last_disk_io = none ∨ s.last_time = none)
    (hnet : s.last_net_io = none ∨ s.last_time = none) :
    collect_disk_io_metrics s cur_io t =
      ({ read_bytes := 0, write_bytes := 0
         read_bytes_per_sec := 0, write_bytes_per_sec := 0 },
       { s with last_disk_io := some cur_io, last_time := some t }) ∧
    collect_network_metrics s cur_net t =
      ({ bytes_sent := 0, bytes_recv := 0
         bytes_sent_per_sec := 0, bytes_recv_per_sec := 0 },
       { s with last_net_io := some cur_net, last_time := some t }) := by
  obtain ⟨d, n, tm⟩ := s
  constructor
  · rcases hdisk with h | h <;> simp only at h <;> subst h <;>
      first
        | rfl
        | (cases d <;> rfl)
  · rcases hnet with h | h <;> simp only at h <;> subst h <;>
      first
        | rfl
        | (cases n <;> rfl)

/-- Concrete instantiation of C2_first_cycle_zero_result at the initial
collector state with nonzero current counters. -/
theorem C2_first_cycle_zero_result_witness :
    collect_disk_io_metrics CollectorState.init ⟨100, 200⟩ 7 =
      ({ read_bytes := 0, write_bytes := 0
         read_bytes_per_sec := 0, write_bytes_per_sec := 0 },
       ⟨some ⟨100, 200⟩, none, some 7⟩) ∧
    collect_network_metrics CollectorState.init ⟨5, 6⟩ 7 =
      ({ bytes_sent := 0, bytes_recv := 0
         bytes_sent_per_sec := 0, bytes_recv_per_sec := 0 },
       ⟨none, some ⟨5, 6⟩, some 7⟩) :=
  C2_first_cycle_zero_result CollectorState.init ⟨100, 200⟩ ⟨5, 6⟩ 7
    (Or.inl rfl) (Or.inl rfl)

/-- C3, refuted: send_metrics returns True on a completed response with
status 304, which is not a 2xx code, because raise_for_status only
raises for codes in [400, 600). -/
theorem C3_counterexample :
    send_metrics (PostOutcome.response 304) = true ∧
    ¬ (200 ≤ (304 : ℤ) ∧ (304 : ℤ) < 300) := by
  decide

/-- C3 (amended): send_metrics returns true exactly when the POST
completes with a status code outside [400, 600), the range for which
raise_for_status raises; every network-layer RequestException and every
4xx or 5xx response yields false, with no retry inside the call. -/
theorem C3_send_metrics_success_range (outcome : PostOutcome) :
    send_metrics outcome = true ↔
      ∃ status_code : ℤ, outcome = PostOutcome.response status_code ∧
        ¬ (400 ≤ status_code ∧ status_code < 600) := by
  cases outcome with
  | request_exception e => simp [send_metrics]
  | response status_code =>
      by_cases h : 400 ≤ status_code ∧ status_code < 600
      · simp [send_metrics, raise_for_status_raises, h]
      · simp [send_metrics, raise_for_status_raises, h]
        omega

/-- C4, confirmed over the loop trace model: a caught exception inside a
cycle is logged and followed by the normal interval sleep, after which
the remaining events are processed; a completed cycle whose transmission
returned False likewise sleeps and continues; and the loop's trace
reaches the stopped action exactly when a KeyboardInterrupt event
occurs, never from a cycle error. -/
theorem C4_loop_failure_isolation (interval : ℤ) (e : String) (sent : Bool)
    (evs rest : List CycleEvent) :
    run_loop interval (CycleEvent.exception e :: rest) =
      LoopAction.log_error e :: LoopAction.sleep interval ::
        run_loop interval rest ∧
    run_loop interval (CycleEvent.ok sent :: rest) =
      LoopAction.cycle sent :: LoopAction.sleep interval ::
        run_loop interval rest ∧
    (LoopAction.stopped ∈ run_loop interval evs ↔
      CycleEvent.interrupt ∈ evs) := by
  refine ⟨rfl, rfl, ?_⟩
  induction evs with
  | nil => simp [run_loop]
  | cons ev rest ih => cases ev <;> simp [run_loop, ih]

/-- check_all is the per-spec dispatch restricted to the http and tcp
kinds, in input order. -/
theorem check_all_eq_filter_map (env_http : HealthCheckConfig → HttpOutcome)
    (env_tcp : HealthCheckConfig → TcpOutcome)
    (specs : List HealthCheckConfig) :
    check_all env_http env_tcp specs =
      (specs.filter fun c => c.type == "http" || c.type == "tcp").map
        fun c => if c.type = "http" then check_http c (env_http c)
          else check_tcp c (env_tcp c) := by
  induction specs with
  | nil => rfl
  | cons c rest ih =>
      by_cases h1 : c.type = "http"
      · simp [check_all, h1, ih]
      · by_cases h2 : c.type = "tcp" <;>
          simp [check_all, h1, h2, ih]

/-- C5, confirmed: for every list of health check specs, check_all
returns exactly one result per spec of type http or tcp, in the input
order, and silently skips specs of any other type. -/
theorem C5_check_all_order_and_skip
    (env_http : HealthCheckConfig → HttpOutcome)
    (env_tcp : HealthCheckConfig → TcpOutcome)
    (specs : List HealthCheckConfig) :
    check_all env_http env_tcp specs =
      (specs.filter fun c => c.type == "http" || c.type == "tcp").map
        fun c => if c.type = "http" then check_http c (env_http c)
          else check_tcp c (env_tcp c) :=
  check_all_eq_filter_map env_http env_tcp specs

/-- C6, confirmed: check_http is healthy exactly when the completed GET's
status equals the configured expected status; on a mismatch the result
is unhealthy with a message naming the expected and actual codes and
still carries the status code; on any exception the result is unhealthy
with the failure description as message and no status_code populated. -/
theorem C6_check_http_status_and_errors (config : HealthCheckConfig)
    (status_code : ℤ) (response_time : ℚ) (e : String) :
    ((check_http config (HttpOutcome.response status_code response_time)).healthy =
        true ↔ config.expected_status = some status_code) ∧
    (config.expected_status ≠ some status_code →
      (check_http config (HttpOutcome.response status_code response_time)).message =
        "Expected " ++ pyStrOptInt config.expected_status ++ ", got " ++
          toString status_code ∧
      (check_http config (HttpOutcome.response status_code response_time)).status_code =
        some status_code) ∧
    check_http config (HttpOutcome.exc e) =
      { name := config.name, type := "http", healthy := false, message := e } := by
  refine ⟨?_, fun hne => ⟨?_, ?_⟩, rfl⟩
  · simp [check_http, eq_comm]
  · have hb : decide ((some status_code : Option ℤ) = config.expected_status) = false := by
      simp only [decide_eq_false_iff_not]
      exact fun h => hne h.symm
    simp [check_http, hb]
  · rfl

/-- The api-key substitution touches only the server section. -/
theorem substitute_api_key_collection (env : String → Option String)
    (raw : RawConfig) :
    (substitute_api_key env raw).collection = raw.collection := by
  obtain ⟨sv, co, hcs⟩ := raw
  cases sv with
  | none => rfl
  | some srv =>
      obtain ⟨u, k⟩ := srv
      cases k with
      | none => rfl
      | some api_key =>
          by_cases hm : (pyStartsWith api_key "$\x7b" && pyEndsWith api_key "\x7d") = true <;>
            simp [substitute_api_key, hm]

/-- C7, confirmed: load_config exits with status 1 and never returns a
config on a missing file, a malformed document, or any validation
failure; a collection section with interval_seconds = 3 always fails
validation and exits 1, while a well-formed config with
interval_seconds = 30 is accepted and returned. -/
theorem C7_load_config_fatal_validation (env : String → Option String)
    (m : String) (raw : RawConfig) (coll : RawCollection) :
    load_config env ConfigFileOutcome.missing = LoadResult.exit 1 ∧
    load_config env (ConfigFileOutcome.malformed m) = LoadResult.exit 1 ∧
    (∀ e, validateAgentConfig (substitute_api_key env raw) = Except.error e →
      load_config env (ConfigFileOutcome.parsed raw) = LoadResult.exit 1) ∧
    (raw.collection = some coll → coll.interval_seconds = some 3 →
      load_config env (ConfigFileOutcome.parsed raw) = LoadResult.exit 1) ∧
    load_config env (ConfigFileOutcome.parsed
        ⟨some ⟨some "http://server", some "secret"⟩,
         some ⟨some 30, none, none⟩, none⟩) =
      LoadResult.ok ⟨⟨"http://server", "secret"⟩, ⟨30, true, ["/"]⟩, []⟩ := by
  refine ⟨rfl, rfl, fun e he => ?_, fun hc h3 => ?_, ?_⟩
  · simp [load_config, he]
  · have hc' : (substitute_api_key env raw).collection = some coll := by
      rw [substitute_api_key_collection]; exact hc
    simp only [load_config]
    cases hs : validateServer (substitute_api_key env raw).server with
    | error err => simp [validateAgentConfig, hs]
    | ok srv =>
        have : validateCollection (substitute_api_key env raw).collection =
            Except.error "collection.interval_seconds: input should be at least 5" := by
          rw [hc']
          norm_num [validateCollection, h3]
        simp [validateAgentConfig, hs, this]
  · have hsub : substitute_api_key env
        ⟨some ⟨some "http://server", some "secret"⟩,
         some ⟨some 30, none, none⟩, none⟩ =
        ⟨some ⟨some "http://server", some "secret"⟩,
         some ⟨some 30, none, none⟩, none⟩ := by
      have hcond : (pyStartsWith "secret" "$\x7b" && pyEndsWith "secret" "\x7d") = false := by
        decide
      simp [substitute_api_key, hcond]
    norm_num [load_config, hsub, validateAgentConfig, validateServer,
      validateCollection]

/-- Rounding to two decimals fixes the rationals that are already
multiples of one hundredth times an integer with zero fraction below
one half; in particular pyRound2 0 = 0. -/
theorem pyRound2_zero : pyRound2 0 = 0 := by
  unfold pyRound2 roundHalfEven
  norm_num

/-- C8, refuted in its equality part: the value stored in container_info
is round(cpu_percent, 2), so with cpu_delta 1 and system_delta 3 the
reported value is 33.33, not the exact (1/3)*100. -/
theorem C8_counterexample :
    reported_cpu_percent ⟨1, 3⟩ ⟨0, 0⟩ = 3333 / 100 ∧
    reported_cpu_percent ⟨1, 3⟩ ⟨0, 0⟩ ≠
      (((1 : ℤ) - 0 : ℤ) : ℚ) / (((3 : ℤ) - 0 : ℤ) : ℚ) * 100 := by
  have hc : container_cpu_percent ⟨1, 3⟩ ⟨0, 0⟩ = 100 / 3 := by
    norm_num [container_cpu_percent]
  have hf : (⌊(100 / 3 : ℚ) * 100⌋ : ℤ) = 3333 := by norm_num
  have hr : roundHalfEven ((100 / 3 : ℚ) * 100) = 3333 := by
    unfold roundHalfEven
    rw [hf]
    norm_num
  constructor
  · unfold reported_cpu_percent pyRound2
    rw [hc, hr]
    norm_num
  · unfold reported_cpu_percent pyRound2
    rw [hc, hr]
    norm_num

/-- C8 (amended): the reported CPU percent is the formula
(cpu_delta / system_delta) * 100 rounded to two decimals when the system
delta is positive and exactly 0 when it is zero (no division occurs);
the reported memory percent is (usage / limit) * 100 rounded to two
decimals when the limit is positive and 0 for a non-positive limit; the
spec's own test vector cpu_delta 200, system_delta 1000 reports exactly
20. -/
theorem C8_guarded_percent_formulas (cpu_stats precpu_stats : CpuUsageStats)
    (mem_usage mem_limit : ℤ) :
    (cpu_stats.system_cpu_usage - precpu_stats.system_cpu_usage > 0 →
      reported_cpu_percent cpu_stats precpu_stats =
        pyRound2 (((cpu_stats.total_usage - precpu_stats.total_usage : ℤ) : ℚ) /
          ((cpu_stats.system_cpu_usage - precpu_stats.system_cpu_usage : ℤ) : ℚ) *
          100)) ∧
    (cpu_stats.system_cpu_usage - precpu_stats.system_cpu_usage = 0 →
      reported_cpu_percent cpu_stats precpu_stats = 0) ∧
    (mem_limit > 0 →
      reported_mem_percent mem_usage mem_limit =
        pyRound2 ((mem_usage : ℚ) / (mem_limit : ℚ) * 100)) ∧
    (mem_limit ≤ 0 → reported_mem_percent mem_usage mem_limit = 0) ∧
    reported_cpu_percent ⟨200, 1000⟩ ⟨0, 0⟩ = 20 := by
  refine ⟨fun h => ?_, fun h => ?_, fun h => ?_, fun h => ?_, ?_⟩
  · simp [reported_cpu_percent, container_cpu_percent, h]
  · simp [reported_cpu_percent, container_cpu_percent, h, pyRound2_zero]
  · simp [reported_mem_percent, container_mem_percent, h]
  · have h' : ¬ (mem_limit > 0) := by omega
    simp [reported_mem_percent, container_mem_percent, h', pyRound2_zero]
  · have hc : container_cpu_percent ⟨200, 1000⟩ ⟨0, 0⟩ = 20 := by
      norm_num [container_cpu_percent]
    have hr : roundHalfEven ((20 : ℚ) * 100) = 2000 := by
      unfold roundHalfEven
      norm_num
    unfold reported_cpu_percent pyRound2
    rw [hc, hr]
    norm_num

/-- C9, refuted: with exactly one configured health check whose type is
"process", check_all returns no result, so the snapshot carries no
health_checks key even though a check is configured. -/
theorem C9_counterexample :
    (cycle_snapshot (0 : ℕ) (fun _ => HttpOutcome.exc "")
        (fun _ => TcpOutcome.exc "")
        [{ name := "svc", type := "process" }]).health_checks = none ∧
    ([{ name := "svc", type := "process" }] : List HealthCheckConfig) ≠ [] := by
  constructor
  · rfl
  · simp

/-- C9 (amended): the snapshot carries the health_checks key exactly when
check_all produced at least one result, that is, exactly when at least
one configured check has type http or tcp; configured checks of other
types alone do not make the key appear. -/
theorem C9_health_checks_attach_iff (α : Type) (metrics : α)
    (env_http : HealthCheckConfig → HttpOutcome)
    (env_tcp : HealthCheckConfig → TcpOutcome)
    (configured : List HealthCheckConfig) :
    (cycle_snapshot metrics env_http env_tcp configured).health_checks =
      (if check_all env_http env_tcp configured = [] then none
        else some (check_all env_http env_tcp configured)) ∧
    ((cycle_snapshot metrics env_http env_tcp configured).health_checks ≠ none ↔
      ∃ c ∈ configured, c.type = "http" ∨ c.type = "tcp") := by
  have h1 : (cycle_snapshot metrics env_http env_tcp configured).health_checks =
      (if check_all env_http env_tcp configured = [] then none
        else some (check_all env_http env_tcp configured)) := by
    by_cases hL : check_all env_http env_tcp configured = [] <;>
      simp [cycle_snapshot, List.isEmpty_iff, hL]
  refine ⟨h1, ?_⟩
  rw [h1]
  by_cases hL : check_all env_http env_tcp configured = []
  · rw [if_pos hL]
    refine iff_of_false (by simp) ?_
    rw [check_all_eq_filter_map, List.map_eq_nil_iff,
      List.filter_eq_nil_iff] at hL
    rintro ⟨c, hc, hor⟩
    have hcb := hL c hc
    simp only [Bool.or_eq_true, beq_iff_eq] at hcb
    exact hcb (by tauto)
  · rw [if_neg hL]
    refine iff_of_true (by simp) ?_
    rw [check_all_eq_filter_map] at hL
    have hfil : (configured.filter fun c =>
        c.type == "http" || c.type == "tcp") ≠ [] := by
      intro hnil
      exact hL (by rw [hnil]; rfl)
    rcases List.exists_mem_of_ne_nil _ hfil with ⟨c, hc⟩
    have hmem := List.mem_filter.mp hc
    refine ⟨c, hmem.1, ?_⟩
    have hcb := hmem.2
    simp only [Bool.or_eq_true, beq_iff_eq] at hcb
    exact hcb

/-- C10, confirmed over the oracle model: every exception raised inside
check_http or check_tcp (including the ones raised when url, host or
port is None) is converted into the unhealthy result carrying the
exception text as message, never propagated; and check_all is total,
returning exactly one result per http or tcp spec for every input
list. -/
theorem C10_exception_to_unhealthy_result (config : HealthCheckConfig)
    (e : String) (env_http : HealthCheckConfig → HttpOutcome)
    (env_tcp : HealthCheckConfig → TcpOutcome)
    (specs : List HealthCheckConfig) :
    check_http config (HttpOutcome.exc e) =
      { name := config.name, type := "http", healthy := false, message := e } ∧
    check_tcp config (TcpOutcome.exc e) =
      { name := config.name, type := "tcp", healthy := false, message := e } ∧
    (check_all env_http env_tcp specs).length =
      (specs.filter fun c => c.type == "http" || c.type == "tcp").length := by
  refine ⟨rfl, rfl, ?_⟩
  rw [check_all_eq_filter_map, List.length_map]

end AgentPy
